import Mathlib

/-!
Shallow embedding of the B53 indirect register access driver
(target/linux/generic/files/drivers/net/phy/b53/b53_mdio.c).

The MDIO bus transport is modelled as a pair of functions over an abstract
transport state `σ`; `mdiobus_read` returns an `Int` (a register value when
nonnegative, a negative errno on transport failure) and `mdiobus_write`
returns an `Int` status (0 on success, negative errno on failure), exactly
as the Linux primitives do.  Every bus transaction is also recorded in an
event log so that claims about which transactions are issued, and in which
order, can be stated.  C machine integers are modelled as `Nat`/`Int` with
explicit truncations (`% 2^w`).
-/

namespace B53

/-- Register Access Pseudo PHY address (B53_PSEUDO_PHY, 0x1e). -/
def B53_PSEUDO_PHY : Nat := 0x1e

/-- MII Page register (REG_MII_PAGE, 0x10). -/
def REG_MII_PAGE : Nat := 0x10

/-- MII Address register (REG_MII_ADDR, 0x11). -/
def REG_MII_ADDR : Nat := 0x11

/-- MII Data register 0 (REG_MII_DATA0, 0x18); data slots are 0x18..0x1b. -/
def REG_MII_DATA0 : Nat := 0x18

/-- MII Data register 1 (REG_MII_DATA1, 0x19). -/
def REG_MII_DATA1 : Nat := 0x19

/-- Page-enable bit of the page-select word (BIT(0)). -/
def REG_MII_PAGE_ENABLE : Nat := 1

/-- Write-pending opcode bit of the address word (BIT(0)). -/
def REG_MII_ADDR_WRITE : Nat := 1

/-- Read-pending opcode bit of the address word (BIT(1)). -/
def REG_MII_ADDR_READ : Nat := 2

/-- The value `-EIO` returned by the sequencer on completion-poll timeout. -/
def eioErr : Int := -5

/-- Truncation of a C `int` to `u16` (two's complement, as `(u16)x`). -/
def toU16 (x : Int) : Nat := (x % 65536).toNat

/-- Truncation of a C `int` to `u32` (two's complement, as `(u32)x`). -/
def toU32 (x : Int) : Nat := (x % 4294967296).toNat

/-- Truncation of a C `int` to `u64` (two's complement, as `(u64)x`). -/
def toU64 (x : Int) : Nat := (x % 18446744073709551616).toNat

/-- An abstract MDIO bus transport over transport state `σ`:
`read s phy reg` yields the transaction result and the next state,
`write s phy reg v` yields the status and the next state. -/
structure MBus (σ : Type) where
  read : σ → Nat → Nat → Int × σ
  write : σ → Nat → Nat → Nat → Int × σ

/-- One bus transaction as recorded in the event log: a read of a register
with its result, or a write of a value with its status. -/
inductive BusEvent where
  | rd (phy reg : Nat) (ret : Int)
  | wr (phy reg v : Nat) (ret : Int)
deriving DecidableEq, Repr

/-- Bus state threaded through the driver: transport state plus the
chronological log of transactions issued so far. -/
abbrev BusSt (σ : Type) := σ × List BusEvent

/-- The `struct b53_device` fields that the MDIO access layer uses:
only the cached page number (`dev->current_page`). -/
structure b53_device where
  current_page : Nat
deriving DecidableEq, Repr

/-- mdiobus_read wrapper: performs the transaction and logs it. -/
def mdiobus_read (bus : MBus σ) (s : BusSt σ) (phy reg : Nat) : Int × BusSt σ :=
  let r := bus.read s.1 phy reg
  (r.1, (r.2, s.2 ++ [BusEvent.rd phy reg r.1]))

/-- mdiobus_write wrapper: performs the transaction and logs it. -/
def mdiobus_write (bus : MBus σ) (s : BusSt σ) (phy reg v : Nat) : Int × BusSt σ :=
  let r := bus.write s.1 phy reg v
  (r.1, (r.2, s.2 ++ [BusEvent.wr phy reg v r.1]))

/-- The completion-poll loop of `b53_mdio_op` (lines 62-72): up to 5 reads
of REG_MII_ADDR; the loop counter `i` is modelled by the list of remaining
iterations.  Each read value is truncated to `u16` (the C local `v`); if
neither opcode bit is set the loop breaks with success, and exhausting all
iterations yields `-EIO`. -/
def b53_poll (bus : MBus σ) : BusSt σ → List Nat → Int × BusSt σ
  | s, [] => (eioErr, s)
  | s, _ :: rest =>
    let r := mdiobus_read bus s B53_PSEUDO_PHY REG_MII_ADDR
    if toU16 r.1 &&& (REG_MII_ADDR_WRITE ||| REG_MII_ADDR_READ) = 0 then (0, r.2)
    else b53_poll bus r.2 rest

/-- The five iterations `i = 0..4` of the completion-poll loop. -/
def pollIters : List Nat := [0, 1, 2, 3, 4]

/-- Address/trigger phase of `b53_mdio_op` (lines 55-72): write
`(reg << 8) | op` to REG_MII_ADDR, propagating a write failure, then poll
for completion. -/
def b53_mdio_op_issue (bus : MBus σ) (s : BusSt σ) (dev : b53_device)
    (reg op : Nat) : Int × BusSt σ × b53_device :=
  let v := (reg <<< 8) ||| op
  let r := mdiobus_write bus s B53_PSEUDO_PHY REG_MII_ADDR v
  if r.1 ≠ 0 then (r.1, r.2, dev)
  else
    let p := b53_poll bus r.2 pollIters
    (p.1, p.2, dev)

/-- `b53_mdio_op` (lines 39-73): select the page if the cached page
differs (updating the cache only after the page-select write succeeded),
then write the address/opcode word and poll for completion. -/
def b53_mdio_op (bus : MBus σ) (s : BusSt σ) (dev : b53_device)
    (page reg op : Nat) : Int × BusSt σ × b53_device :=
  if dev.current_page ≠ page then
    let v := (page <<< 8) ||| REG_MII_PAGE_ENABLE
    let r := mdiobus_write bus s B53_PSEUDO_PHY REG_MII_PAGE v
    if r.1 ≠ 0 then (r.1, r.2, dev)
    else b53_mdio_op_issue bus r.2 ⟨page⟩ reg op
  else b53_mdio_op_issue bus s dev reg op

/-- `b53_mdio_read8` (lines 75-87).  The result quadruple is
(return status, bus state, device, `*val`); `val0` is the value stored at
`*val` before the call, left in place when the op fails (C leaves the out
parameter untouched on the error path).  On success `*val` (a `u8`)
receives `mdiobus_read(...) & 0xff`, with no check of the read's status. -/
def b53_mdio_read8 (bus : MBus σ) (s : BusSt σ) (dev : b53_device)
    (page reg val0 : Nat) : Int × BusSt σ × b53_device × Nat :=
  let r := b53_mdio_op bus s dev page reg REG_MII_ADDR_READ
  if r.1 ≠ 0 then (r.1, r.2.1, r.2.2, val0)
  else
    let d := mdiobus_read bus r.2.1 B53_PSEUDO_PHY REG_MII_DATA0
    (0, d.2, r.2.2, (Int.land d.1 255).toNat)

/-- `b53_mdio_read16` (lines 89-101): `*val` is a `u16`, assigned the
slot-0 read truncated to 16 bits, with no check of the read's status. -/
def b53_mdio_read16 (bus : MBus σ) (s : BusSt σ) (dev : b53_device)
    (page reg val0 : Nat) : Int × BusSt σ × b53_device × Nat :=
  let r := b53_mdio_op bus s dev page reg REG_MII_ADDR_READ
  if r.1 ≠ 0 then (r.1, r.2.1, r.2.2, val0)
  else
    let d := mdiobus_read bus r.2.1 B53_PSEUDO_PHY REG_MII_DATA0
    (0, d.2, r.2.2, toU16 d.1)

/-- `b53_mdio_read32` (lines 103-116): `*val` (a `u32`) receives slot 0,
then is or-ed with slot 1 shifted left 16 (each converted to `u32`),
with no check of either read's status. -/
def b53_mdio_read32 (bus : MBus σ) (s : BusSt σ) (dev : b53_device)
    (page reg val0 : Nat) : Int × BusSt σ × b53_device × Nat :=
  let r := b53_mdio_op bus s dev page reg REG_MII_ADDR_READ
  if r.1 ≠ 0 then (r.1, r.2.1, r.2.2, val0)
  else
    let d0 := mdiobus_read bus r.2.1 B53_PSEUDO_PHY REG_MII_DATA0
    let v0 := toU32 d0.1
    let d1 := mdiobus_read bus d0.2 B53_PSEUDO_PHY REG_MII_DATA1
    (0, d1.2, r.2.2, v0 ||| toU32 (d1.1 * 65536))

/-- The slot-draining loop of `b53_mdio_read48`/`b53_mdio_read64`
(`for (i = hi; i >= 0; i--) { temp <<= 16; temp |= read(DATA0 + i); }`):
`temp` is a `u64`, the slot indices are visited in the given (descending)
order, and each read's result is converted to `u64` and or-ed in with no
status check. -/
def b53_read_slots (bus : MBus σ) : BusSt σ → Nat → List Nat → Nat × BusSt σ
  | s, temp, [] => (temp, s)
  | s, temp, i :: rest =>
    let r := mdiobus_read bus s B53_PSEUDO_PHY (REG_MII_DATA0 + i)
    b53_read_slots bus r.2 (((temp <<< 16) % 18446744073709551616) ||| toU64 r.1) rest

/-- `b53_mdio_read48` (lines 118-137): drain slots 2, 1, 0. -/
def b53_mdio_read48 (bus : MBus σ) (s : BusSt σ) (dev : b53_device)
    (page reg val0 : Nat) : Int × BusSt σ × b53_device × Nat :=
  let r := b53_mdio_op bus s dev page reg REG_MII_ADDR_READ
  if r.1 ≠ 0 then (r.1, r.2.1, r.2.2, val0)
  else
    let t := b53_read_slots bus r.2.1 0 [2, 1, 0]
    (0, t.2, r.2.2, t.1)

/-- `b53_mdio_read64` (lines 139-158): drain slots 3, 2, 1, 0. -/
def b53_mdio_read64 (bus : MBus σ) (s : BusSt σ) (dev : b53_device)
    (page reg val0 : Nat) : Int × BusSt σ × b53_device × Nat :=
  let r := b53_mdio_op bus s dev page reg REG_MII_ADDR_READ
  if r.1 ≠ 0 then (r.1, r.2.1, r.2.2, val0)
  else
    let t := b53_read_slots bus r.2.1 0 [3, 2, 1, 0]
    (0, t.2, r.2.2, t.1)

/-- `b53_mdio_write8` (lines 160-170): stage `value` (a `u8`) into slot 0,
aborting on a write failure, then trigger the WRITE operation. -/
def b53_mdio_write8 (bus : MBus σ) (s : BusSt σ) (dev : b53_device)
    (page reg value : Nat) : Int × BusSt σ × b53_device :=
  let r := mdiobus_write bus s B53_PSEUDO_PHY REG_MII_DATA0 value
  if r.1 ≠ 0 then (r.1, r.2, dev)
  else b53_mdio_op bus r.2 dev page reg REG_MII_ADDR_WRITE

/-- `b53_mdio_write16` (lines 172-183): stage `value` (a `u16`) into
slot 0, aborting on a write failure, then trigger the WRITE operation. -/
def b53_mdio_write16 (bus : MBus σ) (s : BusSt σ) (dev : b53_device)
    (page reg value : Nat) : Int × BusSt σ × b53_device :=
  let r := mdiobus_write bus s B53_PSEUDO_PHY REG_MII_DATA0 value
  if r.1 ≠ 0 then (r.1, r.2, dev)
  else b53_mdio_op bus r.2 dev page reg REG_MII_ADDR_WRITE

/-- The slot-staging loop of the wide writes
(`for (i = 0; i < k; i++) { write(DATA0 + i, temp & 0xffff); temp >>= 16; }`):
each staging write that fails aborts with its status, before anything
further is issued. -/
def b53_write_slots (bus : MBus σ) : BusSt σ → Nat → List Nat → Int × BusSt σ
  | s, _, [] => (0, s)
  | s, temp, i :: rest =>
    let r := mdiobus_write bus s B53_PSEUDO_PHY (REG_MII_DATA0 + i) (temp &&& 65535)
    if r.1 ≠ 0 then (r.1, r.2)
    else b53_write_slots bus r.2 (temp >>> 16) rest

/-- `b53_mdio_write32` (lines 185-202): stage slots 0, 1 then trigger. -/
def b53_mdio_write32 (bus : MBus σ) (s : BusSt σ) (dev : b53_device)
    (page reg value : Nat) : Int × BusSt σ × b53_device :=
  let r := b53_write_slots bus s value [0, 1]
  if r.1 ≠ 0 then (r.1, r.2, dev)
  else b53_mdio_op bus r.2 dev page reg REG_MII_ADDR_WRITE

/-- `b53_mdio_write48` (lines 204-221): stage slots 0, 1, 2 then trigger. -/
def b53_mdio_write48 (bus : MBus σ) (s : BusSt σ) (dev : b53_device)
    (page reg value : Nat) : Int × BusSt σ × b53_device :=
  let r := b53_write_slots bus s value [0, 1, 2]
  if r.1 ≠ 0 then (r.1, r.2, dev)
  else b53_mdio_op bus r.2 dev page reg REG_MII_ADDR_WRITE

/-- `b53_mdio_write64` (lines 223-239): stage slots 0, 1, 2, 3 then
trigger. -/
def b53_mdio_write64 (bus : MBus σ) (s : BusSt σ) (dev : b53_device)
    (page reg value : Nat) : Int × BusSt σ × b53_device :=
  let r := b53_write_slots bus s value [0, 1, 2, 3]
  if r.1 ≠ 0 then (r.1, r.2, dev)
  else b53_mdio_op bus r.2 dev page reg REG_MII_ADDR_WRITE

/-- The device state installed by `b53_phy_probe` (line 267):
`dev->current_page = 0xff`. -/
def b53_phy_probe_device : b53_device := ⟨0xff⟩

/-- Predicate picking out page-select bus writes (writes to REG_MII_PAGE). -/
def isPageSelW : BusEvent → Bool
  | BusEvent.wr _ reg _ _ => reg = REG_MII_PAGE
  | _ => false

/-- Predicate picking out address/trigger bus writes (writes to
REG_MII_ADDR). -/
def isAddrW : BusEvent → Bool
  | BusEvent.wr _ reg _ _ => reg = REG_MII_ADDR
  | _ => false

/-- Predicate picking out completion-poll reads (reads of REG_MII_ADDR). -/
def isAddrRd : BusEvent → Bool
  | BusEvent.rd _ reg _ => reg = REG_MII_ADDR
  | _ => false

/-- Predicate picking out data-slot bus writes (writes to 0x18..0x1b). -/
def isDataW : BusEvent → Bool
  | BusEvent.wr _ reg _ _ => REG_MII_DATA0 ≤ reg && reg ≤ REG_MII_DATA0 + 3
  | _ => false

/-- One register store of the fault-free simulated transport: registers
are 16-bit; a store to REG_MII_ADDR is latched with the two opcode bits
cleared (the simulated device completes every operation instantly). -/
def simWrite (f : Nat → Nat) (reg v : Nat) : Nat → Nat :=
  fun r => if r = reg then
    (if reg = REG_MII_ADDR then (v % 65536) &&& 65532 else v % 65536)
  else f r

/-- The fault-free simulated transport of the spec's testable properties:
a register file in which every transaction succeeds, the four data slots
retain what was staged, and the address register always reads back with
the opcode bits clear. -/
def simBus : MBus (Nat → Nat) :=
  { read := fun f _ reg => (Int.ofNat (f reg), f)
    write := fun f _ reg v => (0, simWrite f reg v) }

/-- A scripted transport for fault injection: the state is the list of
pending transaction results; each transaction (read or write alike)
consumes the next scripted result, defaulting to 0. -/
def scriptBus : MBus (List Int) :=
  { read := fun s _ _ => (s.headD 0, s.tail)
    write := fun s _ _ _ => (s.headD 0, s.tail) }

/-- A transport whose writes all succeed and whose reads of any register
always return 3, i.e. report both opcode bits still pending. -/
def pendBus : MBus Unit :=
  { read := fun _ _ _ => (3, ())
    write := fun _ _ _ _ => (0, ()) }

/-! ### Arithmetic helper lemmas -/

theorem toU16_ofNat (n : Nat) : toU16 ((n : Nat) : Int) = n % 65536 := by
  simp [toU16]
  omega

theorem and_65532_and_3 (x : Nat) : x &&& 65532 &&& 3 = 0 := by
  rw [Nat.and_assoc, (by decide : (65532 : Nat) &&& 3 = 0), Nat.and_zero]

theorem and_65535_eq_mod (x : Nat) : x &&& 65535 = x % 65536 := by
  have h := Nat.and_pow_two_sub_one_eq_mod x 16
  norm_num at h
  exact h

theorem lor_mul_add (a b : Nat) (hb : b < 65536) : (a * 65536) ||| b = a * 65536 + b := by
  have h : (2 : Nat) ^ 16 * a + b = 2 ^ 16 * a ||| b :=
    Nat.mul_add_lt_is_or (by simpa using hb) a
  have h2 : (2 : Nat) ^ 16 * a = a * 65536 := by ring
  rw [h2] at h
  exact h.symm

theorem countP_append_one (p : BusEvent → Bool) (l : List BusEvent) (e : BusEvent) :
    (l ++ [e]).countP p = l.countP p + (if p e then 1 else 0) := by
  simp [List.countP_append, List.countP_cons]

/-! ### Poll-loop lemmas -/

theorem b53_poll_ret (bus : MBus σ) (att : List Nat) :
    ∀ s, (b53_poll bus s att).1 = 0 ∨ (b53_poll bus s att).1 = eioErr := by
  induction att with
  | nil => intro s; exact Or.inr rfl
  | cons i rest ih =>
    intro s
    simp only [b53_poll]
    split
    · exact Or.inl rfl
    · exact ih _

theorem b53_poll_countP_rd (bus : MBus σ) (p : BusEvent → Bool)
    (hp : ∀ phy reg ret, p (BusEvent.rd phy reg ret) = false) (att : List Nat) :
    ∀ s, ((b53_poll bus s att).2.2).countP p = s.2.countP p := by
  induction att with
  | nil => intro s; rfl
  | cons i rest ih =>
    intro s
    simp only [b53_poll, mdiobus_read]
    split
    · simp [List.countP_append, List.countP_cons, hp]
    · rw [ih]
      simp [List.countP_append, List.countP_cons, hp]

theorem b53_poll_pending (bus : MBus σ)
    (hR : ∀ f : σ, toU16 (bus.read f B53_PSEUDO_PHY REG_MII_ADDR).1 &&&
      (REG_MII_ADDR_WRITE ||| REG_MII_ADDR_READ) ≠ 0) (att : List Nat) :
    ∀ s, (b53_poll bus s att).1 = eioErr ∧
      ((b53_poll bus s att).2.2).countP isAddrRd = s.2.countP isAddrRd + att.length := by
  induction att with
  | nil => intro s; exact ⟨rfl, rfl⟩
  | cons i rest ih =>
    intro s
    simp only [b53_poll, mdiobus_read]
    split
    · exact absurd (by assumption) (hR s.1)
    · obtain ⟨h1, h2⟩ := ih ((bus.read s.1 B53_PSEUDO_PHY REG_MII_ADDR).2,
        s.2 ++ [BusEvent.rd B53_PSEUDO_PHY REG_MII_ADDR
          (bus.read s.1 B53_PSEUDO_PHY REG_MII_ADDR).1])
      refine ⟨h1, ?_⟩
      rw [h2]
      simp [List.countP_append, List.countP_cons, isAddrRd, List.length_cons]
      omega

/-! ### Operation-sequencer lemmas -/

theorem b53_mdio_op_issue_dev (bus : MBus σ) (s : BusSt σ) (dev : b53_device)
    (reg op : Nat) : (b53_mdio_op_issue bus s dev reg op).2.2 = dev := by
  simp only [b53_mdio_op_issue]
  split <;> rfl

theorem b53_mdio_op_issue_countP (bus : MBus σ) (p : BusEvent → Bool)
    (hw : ∀ phy v ret, p (BusEvent.wr phy REG_MII_ADDR v ret) = false)
    (hr : ∀ phy reg ret, p (BusEvent.rd phy reg ret) = false)
    (s : BusSt σ) (dev : b53_device) (reg op : Nat) :
    ((b53_mdio_op_issue bus s dev reg op).2.1.2).countP p = s.2.countP p := by
  simp only [b53_mdio_op_issue, mdiobus_write]
  split
  · simp [List.countP_append, List.countP_cons, hw]
  · rw [b53_poll_countP_rd bus p hr]
    simp [List.countP_append, List.countP_cons, hw]

theorem b53_mdio_op_countP_pagesel (bus : MBus σ) (s : BusSt σ) (dev : b53_device)
    (page reg op : Nat) :
    ((b53_mdio_op bus s dev page reg op).2.1.2).countP isPageSelW =
      s.2.countP isPageSelW + (if dev.current_page ≠ page then 1 else 0) := by
  have hw : ∀ phy v ret, isPageSelW (BusEvent.wr phy REG_MII_ADDR v ret) = false := by
    intro phy v ret
    simp [isPageSelW, REG_MII_ADDR, REG_MII_PAGE]
  have hr : ∀ phy reg ret, isPageSelW (BusEvent.rd phy reg ret) = false := by
    intro phy reg ret
    rfl
  simp only [b53_mdio_op]
  split
  · split
    · simp [mdiobus_write, List.countP_append, List.countP_cons, isPageSelW]
    · rw [b53_mdio_op_issue_countP bus isPageSelW hw hr]
      simp [mdiobus_write, List.countP_append, List.countP_cons, isPageSelW]
  · rw [b53_mdio_op_issue_countP bus isPageSelW hw hr]
    omega

theorem b53_mdio_op_countP (bus : MBus σ) (p : BusEvent → Bool)
    (hpage : ∀ phy v ret, p (BusEvent.wr phy REG_MII_PAGE v ret) = false)
    (hw : ∀ phy v ret, p (BusEvent.wr phy REG_MII_ADDR v ret) = false)
    (hr : ∀ phy reg ret, p (BusEvent.rd phy reg ret) = false)
    (s : BusSt σ) (dev : b53_device) (page reg op : Nat) :
    ((b53_mdio_op bus s dev page reg op).2.1.2).countP p = s.2.countP p := by
  simp only [b53_mdio_op]
  split
  · split
    · simp [mdiobus_write, List.countP_append, List.countP_cons, hpage]
    · rw [b53_mdio_op_issue_countP bus p hw hr]
      simp [mdiobus_write, List.countP_append, List.countP_cons, hpage]
  · exact b53_mdio_op_issue_countP bus p hw hr s dev reg op

theorem b53_mdio_op_dev_success (bus : MBus σ) (s : BusSt σ) (dev : b53_device)
    (page reg op : Nat) :
    (b53_mdio_op bus s dev page reg op).1 = 0 →
    (b53_mdio_op bus s dev page reg op).2.2.current_page = page := by
  obtain ⟨cp⟩ := dev
  simp only [b53_mdio_op]
  split
  · split
    · rename_i hfail
      intro h
      exact absurd h hfail
    · intro _
      rw [b53_mdio_op_issue_dev]
  · rename_i hcp
    intro _
    rw [b53_mdio_op_issue_dev]
    simpa using not_not.mp hcp

/-! ### Slot-staging lemmas -/

/-- The staging transactions a fault-free run of the slot-staging loop
issues: ascending slots, each carrying the current low 16 bits of `temp`. -/
def stagedWr (temp : Nat) : List Nat → List BusEvent
  | [] => []
  | i :: rest =>
    BusEvent.wr B53_PSEUDO_PHY (REG_MII_DATA0 + i) (temp &&& 65535) 0 ::
      stagedWr (temp >>> 16) rest

theorem b53_write_slots_countP (bus : MBus σ) (p : BusEvent → Bool)
    (hp : ∀ phy i v ret, p (BusEvent.wr phy (REG_MII_DATA0 + i) v ret) = false)
    (slots : List Nat) : ∀ s temp,
    ((b53_write_slots bus s temp slots).2.2).countP p = s.2.countP p := by
  induction slots with
  | nil => intro s temp; rfl
  | cons i rest ih =>
    intro s temp
    simp only [b53_write_slots, mdiobus_write]
    split
    · simp [List.countP_append, List.countP_cons, hp]
    · rw [ih]
      simp [List.countP_append, List.countP_cons, hp]

theorem b53_write_slots_ok (bus : MBus σ)
    (hW : ∀ f phy reg v, (bus.write f phy reg v).1 = 0) (slots : List Nat) :
    ∀ (f : σ) (L : List BusEvent) (temp : Nat),
    (b53_write_slots bus (f, L) temp slots).1 = 0 ∧
    (b53_write_slots bus (f, L) temp slots).2.2 = L ++ stagedWr temp slots := by
  induction slots with
  | nil => intro f L temp; exact ⟨rfl, by simp [b53_write_slots, stagedWr]⟩
  | cons i rest ih =>
    intro f L temp
    obtain ⟨h1, h2⟩ := ih (bus.write f B53_PSEUDO_PHY (REG_MII_DATA0 + i)
      (temp &&& 65535)).2
      (L ++ [BusEvent.wr B53_PSEUDO_PHY (REG_MII_DATA0 + i) (temp &&& 65535) 0])
      (temp >>> 16)
    simp [b53_write_slots, mdiobus_write, hW, stagedWr, h1, h2]

/-! ### Fault-free simulated transport lemmas -/

theorem toU16_stored_addr (v : Nat) :
    toU16 (((v % 65536) &&& 65532 : Nat) : Int) &&&
      (REG_MII_ADDR_WRITE ||| REG_MII_ADDR_READ) = 0 := by
  rw [toU16_ofNat,
    Nat.mod_eq_of_lt (lt_of_le_of_lt Nat.and_le_right (by norm_num))]
  exact and_65532_and_3 (v % 65536)

/-- A fault-free `b53_mdio_op` run in full: it succeeds, caches the
requested page, issues the page-select write exactly when the cached page
differs, then the trigger write, and completes on the first poll read. -/
theorem simBus_op_eq (f : Nat → Nat) (L : List BusEvent) (dev : b53_device)
    (page reg op : Nat) :
    b53_mdio_op simBus (f, L) dev page reg op =
      ((0 : Int),
       (simWrite (if dev.current_page ≠ page
                  then simWrite f REG_MII_PAGE ((page <<< 8) ||| REG_MII_PAGE_ENABLE)
                  else f)
          REG_MII_ADDR ((reg <<< 8) ||| op),
        L ++ (if dev.current_page ≠ page
              then [BusEvent.wr B53_PSEUDO_PHY REG_MII_PAGE
                      ((page <<< 8) ||| REG_MII_PAGE_ENABLE) 0]
              else []) ++
          [BusEvent.wr B53_PSEUDO_PHY REG_MII_ADDR ((reg <<< 8) ||| op) 0,
           BusEvent.rd B53_PSEUDO_PHY REG_MII_ADDR
             (Int.ofNat ((((reg <<< 8) ||| op) % 65536) &&& 65532))]),
       ⟨page⟩) := by
  by_cases hcp : dev.current_page ≠ page
  · simp [b53_mdio_op, hcp, b53_mdio_op_issue, mdiobus_write, mdiobus_read,
      simBus, pollIters, b53_poll, simWrite, toU16_stored_addr]
  · simp [b53_mdio_op, hcp, b53_mdio_op_issue, mdiobus_write, mdiobus_read,
      simBus, pollIters, b53_poll, simWrite, toU16_stored_addr]
    exact (not_not.mp hcp) ▸ (by cases dev; simp_all)

theorem toU32_cast (n : Nat) : toU32 ((n : Nat) : Int) = n % 4294967296 := by
  simp [toU32]
  omega

theorem toU64_cast (n : Nat) : toU64 ((n : Nat) : Int) = n % 18446744073709551616 := by
  simp [toU64]
  omega

theorem pagesel_state_apply (c : Prop) [Decidable c] (f : Nat → Nat) (v r : Nat)
    (h : r ≠ REG_MII_PAGE) :
    (if c then simWrite f REG_MII_PAGE v else f) r = f r := by
  split <;> simp [simWrite, h]

theorem simBus_mdiobus_write (s : BusSt (Nat → Nat)) (phy reg v : Nat) :
    mdiobus_write simBus s phy reg v =
      (0, (simWrite s.1 reg v, s.2 ++ [BusEvent.wr phy reg v 0])) := rfl

theorem simBus_mdiobus_read (s : BusSt (Nat → Nat)) (phy reg : Nat) :
    mdiobus_read simBus s phy reg =
      (((s.1 reg : Nat) : Int), (s.1, s.2 ++ [BusEvent.rd phy reg ((s.1 reg : Nat) : Int)])) := rfl

theorem rt16_aux (f : Nat → Nat) (L : List BusEvent) (dev : b53_device)
    (page reg V v0 : Nat) (hV : V < 65536) :
    (b53_mdio_write16 simBus (f, L) dev page reg V).1 = 0 ∧
    (b53_mdio_read16 simBus (b53_mdio_write16 simBus (f, L) dev page reg V).2.1
      (b53_mdio_write16 simBus (f, L) dev page reg V).2.2 page reg v0).1 = 0 ∧
    (b53_mdio_read16 simBus (b53_mdio_write16 simBus (f, L) dev page reg V).2.1
      (b53_mdio_write16 simBus (f, L) dev page reg V).2.2 page reg v0).2.2.2 = V := by
  simp [b53_mdio_write16, b53_mdio_read16, simBus_mdiobus_write, simBus_mdiobus_read,
    simBus_op_eq, simWrite, ite_apply, toU16_ofNat, REG_MII_DATA0, REG_MII_ADDR,
    REG_MII_PAGE, Nat.mod_eq_of_lt hV]

theorem land_cast_255 (n : Nat) : (Int.land ((n : Nat) : Int) 255).toNat = n &&& 255 := rfl

theorem and_255_eq_mod (x : Nat) : x &&& 255 = x % 256 := by
  have h := Nat.and_pow_two_sub_one_eq_mod x 8
  norm_num at h
  exact h

theorem rt8_aux (f : Nat → Nat) (L : List BusEvent) (dev : b53_device)
    (page reg V v0 : Nat) (hV : V < 256) :
    (b53_mdio_write8 simBus (f, L) dev page reg V).1 = 0 ∧
    (b53_mdio_read8 simBus (b53_mdio_write8 simBus (f, L) dev page reg V).2.1
      (b53_mdio_write8 simBus (f, L) dev page reg V).2.2 page reg v0).1 = 0 ∧
    (b53_mdio_read8 simBus (b53_mdio_write8 simBus (f, L) dev page reg V).2.1
      (b53_mdio_write8 simBus (f, L) dev page reg V).2.2 page reg v0).2.2.2 = V := by
  simp [b53_mdio_write8, b53_mdio_read8, simBus_mdiobus_write, simBus_mdiobus_read,
    simBus_op_eq, simWrite, ite_apply, REG_MII_DATA0,
    REG_MII_ADDR, REG_MII_PAGE]
  have e0 : ((V : Int) % 65536) = ((V % 65536 : Nat) : Int) := by
    push_cast
    ring
  rw [e0, land_cast_255, and_255_eq_mod]
  omega

theorem toU32_cast_mul (a : Nat) :
    toU32 (((a : Nat) : Int) * 65536) = (a * 65536) % 4294967296 := by
  have h : (((a : Nat) : Int) * 65536) = (((a * 65536 : Nat) : Nat) : Int) := by
    push_cast
    ring
  rw [h, toU32_cast]

theorem rt32_aux (f : Nat → Nat) (L : List BusEvent) (dev : b53_device)
    (page reg V v0 : Nat) (hV : V < 4294967296) :
    (b53_mdio_write32 simBus (f, L) dev page reg V).1 = 0 ∧
    (b53_mdio_read32 simBus (b53_mdio_write32 simBus (f, L) dev page reg V).2.1
      (b53_mdio_write32 simBus (f, L) dev page reg V).2.2 page reg v0).1 = 0 ∧
    (b53_mdio_read32 simBus (b53_mdio_write32 simBus (f, L) dev page reg V).2.1
      (b53_mdio_write32 simBus (f, L) dev page reg V).2.2 page reg v0).2.2.2 = V := by
  simp [b53_mdio_write32, b53_mdio_read32, b53_write_slots, simBus_mdiobus_write,
    simBus_mdiobus_read, simBus_op_eq, simWrite, ite_apply, toU32_cast, toU32_cast_mul,
    and_65535_eq_mod, Nat.shiftRight_eq_div_pow, REG_MII_DATA0, REG_MII_DATA1,
    REG_MII_ADDR, REG_MII_PAGE]
  have e1 : ((V : Int) / 65536 % 65536 * 65536) = ((V / 65536 % 65536 * 65536 : Nat) : Int) := by
    push_cast
    ring
  have e2 : ((V : Int) % 65536) = ((V % 65536 : Nat) : Int) := by
    push_cast
    ring
  rw [e1, e2, toU32_cast, toU32_cast,
    Nat.mod_eq_of_lt (show V / 65536 % 65536 * 65536 < 4294967296 by omega),
    Nat.mod_eq_of_lt (show V % 65536 < 4294967296 by omega),
    Nat.lor_comm, lor_mul_add _ _ (by omega)]
  omega

theorem rt48_aux (f : Nat → Nat) (L : List BusEvent) (dev : b53_device)
    (page reg V v0 : Nat) (hV : V < 281474976710656) :
    (b53_mdio_write48 simBus (f, L) dev page reg V).1 = 0 ∧
    (b53_mdio_read48 simBus (b53_mdio_write48 simBus (f, L) dev page reg V).2.1
      (b53_mdio_write48 simBus (f, L) dev page reg V).2.2 page reg v0).1 = 0 ∧
    (b53_mdio_read48 simBus (b53_mdio_write48 simBus (f, L) dev page reg V).2.1
      (b53_mdio_write48 simBus (f, L) dev page reg V).2.2 page reg v0).2.2.2 = V := by
  simp [b53_mdio_write48, b53_mdio_read48, b53_write_slots, b53_read_slots,
    simBus_mdiobus_write, simBus_mdiobus_read, simBus_op_eq, simWrite, ite_apply,
    toU64_cast, and_65535_eq_mod, Nat.shiftRight_eq_div_pow, Nat.shiftLeft_eq,
    REG_MII_DATA0, REG_MII_ADDR, REG_MII_PAGE]
  have e2 : ((V : Int) / 65536 / 65536 % 65536) =
      ((V / 65536 / 65536 % 65536 : Nat) : Int) := by
    push_cast
    ring
  have e1 : ((V : Int) / 65536 % 65536) = ((V / 65536 % 65536 : Nat) : Int) := by
    push_cast
    ring
  have e0 : ((V : Int) % 65536) = ((V % 65536 : Nat) : Int) := by
    push_cast
    ring
  rw [e2, e1, e0, toU64_cast, toU64_cast, toU64_cast]
  generalize h2 : V / 65536 / 65536 % 65536 = c2
  generalize h1 : V / 65536 % 65536 = c1
  generalize h0 : V % 65536 = c0
  rw [Nat.mod_eq_of_lt (show c2 < 18446744073709551616 by omega),
    Nat.mod_eq_of_lt (show c1 < 18446744073709551616 by omega),
    Nat.mod_eq_of_lt (show c0 < 18446744073709551616 by omega),
    Nat.mod_eq_of_lt (show c2 * 65536 < 18446744073709551616 by omega),
    lor_mul_add _ _ (show c1 < 65536 by omega),
    Nat.mod_eq_of_lt (show (c2 * 65536 + c1) * 65536 < 18446744073709551616 by omega),
    lor_mul_add _ _ (show c0 < 65536 by omega)]
  omega

theorem rt64_aux (f : Nat → Nat) (L : List BusEvent) (dev : b53_device)
    (page reg V v0 : Nat) (hV : V < 18446744073709551616) :
    (b53_mdio_write64 simBus (f, L) dev page reg V).1 = 0 ∧
    (b53_mdio_read64 simBus (b53_mdio_write64 simBus (f, L) dev page reg V).2.1
      (b53_mdio_write64 simBus (f, L) dev page reg V).2.2 page reg v0).1 = 0 ∧
    (b53_mdio_read64 simBus (b53_mdio_write64 simBus (f, L) dev page reg V).2.1
      (b53_mdio_write64 simBus (f, L) dev page reg V).2.2 page reg v0).2.2.2 = V := by
  simp [b53_mdio_write64, b53_mdio_read64, b53_write_slots, b53_read_slots,
    simBus_mdiobus_write, simBus_mdiobus_read, simBus_op_eq, simWrite, ite_apply,
    toU64_cast, and_65535_eq_mod, Nat.shiftRight_eq_div_pow, Nat.shiftLeft_eq,
    REG_MII_DATA0, REG_MII_ADDR, REG_MII_PAGE]
  have e3 : ((V : Int) / 65536 / 65536 / 65536 % 65536) =
      ((V / 65536 / 65536 / 65536 % 65536 : Nat) : Int) := by
    push_cast
    ring
  have e2 : ((V : Int) / 65536 / 65536 % 65536) =
      ((V / 65536 / 65536 % 65536 : Nat) : Int) := by
    push_cast
    ring
  have e1 : ((V : Int) / 65536 % 65536) = ((V / 65536 % 65536 : Nat) : Int) := by
    push_cast
    ring
  have e0 : ((V : Int) % 65536) = ((V % 65536 : Nat) : Int) := by
    push_cast
    ring
  rw [e3, e2, e1, e0, toU64_cast, toU64_cast, toU64_cast, toU64_cast]
  generalize h3 : V / 65536 / 65536 / 65536 % 65536 = c3
  generalize h2 : V / 65536 / 65536 % 65536 = c2
  generalize h1 : V / 65536 % 65536 = c1
  generalize h0 : V % 65536 = c0
  rw [Nat.mod_eq_of_lt (show c3 < 18446744073709551616 by omega),
    Nat.mod_eq_of_lt (show c2 < 18446744073709551616 by omega),
    Nat.mod_eq_of_lt (show c1 < 18446744073709551616 by omega),
    Nat.mod_eq_of_lt (show c0 < 18446744073709551616 by omega),
    Nat.mod_eq_of_lt (show c3 * 65536 < 18446744073709551616 by omega),
    lor_mul_add _ _ (show c2 < 65536 by omega),
    Nat.mod_eq_of_lt (show (c3 * 65536 + c2) * 65536 < 18446744073709551616 by omega),
    lor_mul_add _ _ (show c1 < 65536 by omega),
    Nat.mod_eq_of_lt (show ((c3 * 65536 + c2) * 65536 + c1) * 65536 <
      18446744073709551616 by omega),
    lor_mul_add _ _ (show c0 < 65536 by omega)]
  omega

/-! ### Page-select transaction counting for the ten operations on the
fault-free transport -/

theorem read8_pagesel (f : Nat → Nat) (L : List BusEvent) (dev : b53_device)
    (page reg v0 : Nat) :
    ((b53_mdio_read8 simBus (f, L) dev page reg v0).2.1.2).countP isPageSelW =
      L.countP isPageSelW + (if dev.current_page ≠ page then 1 else 0) := by
  by_cases hcp : dev.current_page ≠ page <;>
    simp [b53_mdio_read8, simBus_op_eq, simBus_mdiobus_read, hcp, List.countP_append,
      List.countP_cons, isPageSelW, REG_MII_PAGE, REG_MII_ADDR, REG_MII_DATA0]

theorem read16_pagesel (f : Nat → Nat) (L : List BusEvent) (dev : b53_device)
    (page reg v0 : Nat) :
    ((b53_mdio_read16 simBus (f, L) dev page reg v0).2.1.2).countP isPageSelW =
      L.countP isPageSelW + (if dev.current_page ≠ page then 1 else 0) := by
  by_cases hcp : dev.current_page ≠ page <;>
    simp [b53_mdio_read16, simBus_op_eq, simBus_mdiobus_read, hcp, List.countP_append,
      List.countP_cons, isPageSelW, REG_MII_PAGE, REG_MII_ADDR, REG_MII_DATA0]

theorem read32_pagesel (f : Nat → Nat) (L : List BusEvent) (dev : b53_device)
    (page reg v0 : Nat) :
    ((b53_mdio_read32 simBus (f, L) dev page reg v0).2.1.2).countP isPageSelW =
      L.countP isPageSelW + (if dev.current_page ≠ page then 1 else 0) := by
  by_cases hcp : dev.current_page ≠ page <;>
    simp [b53_mdio_read32, simBus_op_eq, simBus_mdiobus_read, hcp, List.countP_append,
      List.countP_cons, isPageSelW, REG_MII_PAGE, REG_MII_ADDR, REG_MII_DATA0,
      REG_MII_DATA1]

theorem read48_pagesel (f : Nat → Nat) (L : List BusEvent) (dev : b53_device)
    (page reg v0 : Nat) :
    ((b53_mdio_read48 simBus (f, L) dev page reg v0).2.1.2).countP isPageSelW =
      L.countP isPageSelW + (if dev.current_page ≠ page then 1 else 0) := by
  by_cases hcp : dev.current_page ≠ page <;>
    simp [b53_mdio_read48, b53_read_slots, simBus_op_eq, simBus_mdiobus_read, hcp,
      List.countP_append, List.countP_cons, isPageSelW, REG_MII_PAGE, REG_MII_ADDR,
      REG_MII_DATA0]

theorem read64_pagesel (f : Nat → Nat) (L : List BusEvent) (dev : b53_device)
    (page reg v0 : Nat) :
    ((b53_mdio_read64 simBus (f, L) dev page reg v0).2.1.2).countP isPageSelW =
      L.countP isPageSelW + (if dev.current_page ≠ page then 1 else 0) := by
  by_cases hcp : dev.current_page ≠ page <;>
    simp [b53_mdio_read64, b53_read_slots, simBus_op_eq, simBus_mdiobus_read, hcp,
      List.countP_append, List.countP_cons, isPageSelW, REG_MII_PAGE, REG_MII_ADDR,
      REG_MII_DATA0]

theorem write8_pagesel (f : Nat → Nat) (L : List BusEvent) (dev : b53_device)
    (page reg w : Nat) :
    ((b53_mdio_write8 simBus (f, L) dev page reg w).2.1.2).countP isPageSelW =
      L.countP isPageSelW + (if dev.current_page ≠ page then 1 else 0) := by
  by_cases hcp : dev.current_page ≠ page <;>
    simp [b53_mdio_write8, simBus_op_eq, simBus_mdiobus_write, hcp, List.countP_append,
      List.countP_cons, isPageSelW, REG_MII_PAGE, REG_MII_ADDR, REG_MII_DATA0]

theorem write16_pagesel (f : Nat → Nat) (L : List BusEvent) (dev : b53_device)
    (page reg w : Nat) :
    ((b53_mdio_write16 simBus (f, L) dev page reg w).2.1.2).countP isPageSelW =
      L.countP isPageSelW + (if dev.current_page ≠ page then 1 else 0) := by
  by_cases hcp : dev.current_page ≠ page <;>
    simp [b53_mdio_write16, simBus_op_eq, simBus_mdiobus_write, hcp, List.countP_append,
      List.countP_cons, isPageSelW, REG_MII_PAGE, REG_MII_ADDR, REG_MII_DATA0]

theorem write32_pagesel (f : Nat → Nat) (L : List BusEvent) (dev : b53_device)
    (page reg w : Nat) :
    ((b53_mdio_write32 simBus (f, L) dev page reg w).2.1.2).countP isPageSelW =
      L.countP isPageSelW + (if dev.current_page ≠ page then 1 else 0) := by
  by_cases hcp : dev.current_page ≠ page <;>
    simp [b53_mdio_write32, b53_write_slots, simBus_op_eq, simBus_mdiobus_write, hcp,
      List.countP_append, List.countP_cons, isPageSelW, REG_MII_PAGE, REG_MII_ADDR,
      REG_MII_DATA0]

theorem write48_pagesel (f : Nat → Nat) (L : List BusEvent) (dev : b53_device)
    (page reg w : Nat) :
    ((b53_mdio_write48 simBus (f, L) dev page reg w).2.1.2).countP isPageSelW =
      L.countP isPageSelW + (if dev.current_page ≠ page then 1 else 0) := by
  by_cases hcp : dev.current_page ≠ page <;>
    simp [b53_mdio_write48, b53_write_slots, simBus_op_eq, simBus_mdiobus_write, hcp,
      List.countP_append, List.countP_cons, isPageSelW, REG_MII_PAGE, REG_MII_ADDR,
      REG_MII_DATA0]

theorem write64_pagesel (f : Nat → Nat) (L : List BusEvent) (dev : b53_device)
    (page reg w : Nat) :
    ((b53_mdio_write64 simBus (f, L) dev page reg w).2.1.2).countP isPageSelW =
      L.countP isPageSelW + (if dev.current_page ≠ page then 1 else 0) := by
  by_cases hcp : dev.current_page ≠ page <;>
    simp [b53_mdio_write64, b53_write_slots, simBus_op_eq, simBus_mdiobus_write, hcp,
      List.countP_append, List.countP_cons, isPageSelW, REG_MII_PAGE, REG_MII_ADDR,
      REG_MII_DATA0]

/-- Any fault-free access leaves the cache at the requested page
(read8 shape; used for the consecutive-access scenarios). -/
theorem read8_dev (f : Nat → Nat) (L : List BusEvent) (dev : b53_device)
    (page reg v0 : Nat) :
    (b53_mdio_read8 simBus (f, L) dev page reg v0).2.2.1 = ⟨page⟩ := by
  simp [b53_mdio_read8, simBus_op_eq, simBus_mdiobus_read]

/-! ### Claim theorems -/

/-- C3: for every width N in 8/16/32/48/64, every page, every register and
every value V representable in N bits, write-N(page, reg, V) followed by
read-N(page, reg) on the fault-free simulated transport (four 16-bit slot
registers retaining what was staged) succeeds and returns exactly V
(for N = 8 the value, being 8-bit, is returned unchanged by the
mask-to-8-bits step). -/
theorem claim_C3_roundtrip (f : Nat → Nat) (L : List BusEvent) (dev : b53_device)
    (page reg v0 V8 V16 V32 V48 V64 : Nat)
    (h8 : V8 < 256) (h16 : V16 < 65536) (h32 : V32 < 4294967296)
    (h48 : V48 < 281474976710656) (h64 : V64 < 18446744073709551616) :
    ((b53_mdio_write8 simBus (f, L) dev page reg V8).1 = 0 ∧
     (b53_mdio_read8 simBus (b53_mdio_write8 simBus (f, L) dev page reg V8).2.1
       (b53_mdio_write8 simBus (f, L) dev page reg V8).2.2 page reg v0).1 = 0 ∧
     (b53_mdio_read8 simBus (b53_mdio_write8 simBus (f, L) dev page reg V8).2.1
       (b53_mdio_write8 simBus (f, L) dev page reg V8).2.2 page reg v0).2.2.2 = V8) ∧
    ((b53_mdio_write16 simBus (f, L) dev page reg V16).1 = 0 ∧
     (b53_mdio_read16 simBus (b53_mdio_write16 simBus (f, L) dev page reg V16).2.1
       (b53_mdio_write16 simBus (f, L) dev page reg V16).2.2 page reg v0).1 = 0 ∧
     (b53_mdio_read16 simBus (b53_mdio_write16 simBus (f, L) dev page reg V16).2.1
       (b53_mdio_write16 simBus (f, L) dev page reg V16).2.2 page reg v0).2.2.2 = V16) ∧
    ((b53_mdio_write32 simBus (f, L) dev page reg V32).1 = 0 ∧
     (b53_mdio_read32 simBus (b53_mdio_write32 simBus (f, L) dev page reg V32).2.1
       (b53_mdio_write32 simBus (f, L) dev page reg V32).2.2 page reg v0).1 = 0 ∧
     (b53_mdio_read32 simBus (b53_mdio_write32 simBus (f, L) dev page reg V32).2.1
       (b53_mdio_write32 simBus (f, L) dev page reg V32).2.2 page reg v0).2.2.2 = V32) ∧
    ((b53_mdio_write48 simBus (f, L) dev page reg V48).1 = 0 ∧
     (b53_mdio_read48 simBus (b53_mdio_write48 simBus (f, L) dev page reg V48).2.1
       (b53_mdio_write48 simBus (f, L) dev page reg V48).2.2 page reg v0).1 = 0 ∧
     (b53_mdio_read48 simBus (b53_mdio_write48 simBus (f, L) dev page reg V48).2.1
       (b53_mdio_write48 simBus (f, L) dev page reg V48).2.2 page reg v0).2.2.2 = V48) ∧
    ((b53_mdio_write64 simBus (f, L) dev page reg V64).1 = 0 ∧
     (b53_mdio_read64 simBus (b53_mdio_write64 simBus (f, L) dev page reg V64).2.1
       (b53_mdio_write64 simBus (f, L) dev page reg V64).2.2 page reg v0).1 = 0 ∧
     (b53_mdio_read64 simBus (b53_mdio_write64 simBus (f, L) dev page reg V64).2.1
       (b53_mdio_write64 simBus (f, L) dev page reg V64).2.2 page reg v0).2.2.2 = V64) :=
  ⟨rt8_aux f L dev page reg V8 v0 h8, rt16_aux f L dev page reg V16 v0 h16,
   rt32_aux f L dev page reg V32 v0 h32, rt48_aux f L dev page reg V48 v0 h48,
   rt64_aux f L dev page reg V64 v0 h64⟩

/-- Witness for C3: the 64-bit round trip evaluated at a concrete input. -/
theorem claim_C3_roundtrip_witness :
    (b53_mdio_read64 simBus
      (b53_mdio_write64 simBus ((fun _ => 0), []) ⟨255⟩ 3 7 1311768467463790320).2.1
      (b53_mdio_write64 simBus ((fun _ => 0), []) ⟨255⟩ 3 7 1311768467463790320).2.2
      3 7 0).2.2.2 = 1311768467463790320 :=
  (claim_C3_roundtrip (fun _ => 0) [] ⟨255⟩ 3 7 0 170 43981 3735928559 123456789012345
    1311768467463790320 (by decide) (by decide) (by decide) (by decide)
    (by decide)).2.2.2.2.2.2

/-- C1 counterexample: a freshly probed device caches the sentinel 0xff,
which is itself a representable 8-bit page number; the very first access,
when it requests page 0xff, issues no page-select write at all (and still
succeeds). -/
theorem claim_C1_counterexample :
    (b53_mdio_read8 simBus ((fun _ => 0), []) b53_phy_probe_device 255 0 0).1 = 0 ∧
    ((b53_mdio_read8 simBus ((fun _ => 0), []) b53_phy_probe_device 255 0 0).2.1.2).countP
      isPageSelW = 0 := by
  exact ⟨rfl, rfl⟩

/-- C1 amended: on a fault-free transport, for every requested page other
than the probe sentinel 0xff, the very first call to any of the ten
read-N/write-N operations after construction issues exactly one
page-select bus write (for page 0xff the select is elided because the
sentinel collides with it). -/
theorem claim_C1_first_access_selects (f : Nat → Nat) (L : List BusEvent)
    (page reg v0 w : Nat) (hpage : page ≠ 255) :
    ((b53_mdio_read8 simBus (f, L) b53_phy_probe_device page reg v0).2.1.2).countP
      isPageSelW = L.countP isPageSelW + 1 ∧
    ((b53_mdio_read16 simBus (f, L) b53_phy_probe_device page reg v0).2.1.2).countP
      isPageSelW = L.countP isPageSelW + 1 ∧
    ((b53_mdio_read32 simBus (f, L) b53_phy_probe_device page reg v0).2.1.2).countP
      isPageSelW = L.countP isPageSelW + 1 ∧
    ((b53_mdio_read48 simBus (f, L) b53_phy_probe_device page reg v0).2.1.2).countP
      isPageSelW = L.countP isPageSelW + 1 ∧
    ((b53_mdio_read64 simBus (f, L) b53_phy_probe_device page reg v0).2.1.2).countP
      isPageSelW = L.countP isPageSelW + 1 ∧
    ((b53_mdio_write8 simBus (f, L) b53_phy_probe_device page reg w).2.1.2).countP
      isPageSelW = L.countP isPageSelW + 1 ∧
    ((b53_mdio_write16 simBus (f, L) b53_phy_probe_device page reg w).2.1.2).countP
      isPageSelW = L.countP isPageSelW + 1 ∧
    ((b53_mdio_write32 simBus (f, L) b53_phy_probe_device page reg w).2.1.2).countP
      isPageSelW = L.countP isPageSelW + 1 ∧
    ((b53_mdio_write48 simBus (f, L) b53_phy_probe_device page reg w).2.1.2).countP
      isPageSelW = L.countP isPageSelW + 1 ∧
    ((b53_mdio_write64 simBus (f, L) b53_phy_probe_device page reg w).2.1.2).countP
      isPageSelW = L.countP isPageSelW + 1 := by
  have hne : (b53_phy_probe_device).current_page ≠ page := by
    simp [b53_phy_probe_device]
    omega
  refine ⟨?_, ?_, ?_, ?_, ?_, ?_, ?_, ?_, ?_, ?_⟩
  · rw [read8_pagesel, if_pos hne]
  · rw [read16_pagesel, if_pos hne]
  · rw [read32_pagesel, if_pos hne]
  · rw [read48_pagesel, if_pos hne]
  · rw [read64_pagesel, if_pos hne]
  · rw [write8_pagesel, if_pos hne]
  · rw [write16_pagesel, if_pos hne]
  · rw [write32_pagesel, if_pos hne]
  · rw [write48_pagesel, if_pos hne]
  · rw [write64_pagesel, if_pos hne]

/-- Witness for the amended C1 at page 0. -/
theorem claim_C1_first_access_selects_witness :
    ((b53_mdio_read8 simBus ((fun _ => 0), []) b53_phy_probe_device 0 4 0).2.1.2).countP
      isPageSelW = [].countP isPageSelW + 1 :=
  (claim_C1_first_access_selects (fun _ => 0) [] 0 4 0 9 (by decide)).1

theorem read8_pagesel_s (s : BusSt (Nat → Nat)) (dev : b53_device)
    (page reg v0 : Nat) :
    ((b53_mdio_read8 simBus s dev page reg v0).2.1.2).countP isPageSelW =
      s.2.countP isPageSelW + (if dev.current_page ≠ page then 1 else 0) := by
  obtain ⟨f, L⟩ := s
  exact read8_pagesel f L dev page reg v0

/-- C7 counterexample: from a freshly probed handle, two consecutive
accesses to the same page 0xff issue zero page-select writes in total,
not exactly one: the sentinel 0xff collides with that page. -/
theorem claim_C7_counterexample :
    ((b53_mdio_read8 simBus
      (b53_mdio_read8 simBus ((fun _ => 0), []) b53_phy_probe_device 255 0 0).2.1
      (b53_mdio_read8 simBus ((fun _ => 0), []) b53_phy_probe_device 255 0 0).2.2.1
      255 0 0).2.1.2).countP isPageSelW = 0 := by
  exact rfl

/-- C7 amended: the page-select step issues exactly one bus write when the
cached page differs from the requested page and none when it matches (so
always 0 or 1); consequently, from a fresh handle, two consecutive
accesses to the same page p with p distinct from the sentinel 0xff issue
exactly one page-select write in total, and two accesses to distinct
pages p1, p2 with p1 distinct from the sentinel issue exactly two. -/
theorem claim_C7_pagesel_elision :
    (∀ (σ : Type) (bus : MBus σ) (s : BusSt σ) (dev : b53_device) (page reg op : Nat),
      ((b53_mdio_op bus s dev page reg op).2.1.2).countP isPageSelW =
        s.2.countP isPageSelW + (if dev.current_page ≠ page then 1 else 0)) ∧
    (∀ (f : Nat → Nat) (L : List BusEvent) (page reg1 reg2 v0 : Nat), page ≠ 255 →
      ((b53_mdio_read8 simBus
        (b53_mdio_read8 simBus (f, L) b53_phy_probe_device page reg1 v0).2.1
        (b53_mdio_read8 simBus (f, L) b53_phy_probe_device page reg1 v0).2.2.1
        page reg2 v0).2.1.2).countP isPageSelW = L.countP isPageSelW + 1) ∧
    (∀ (f : Nat → Nat) (L : List BusEvent) (p1 p2 reg1 reg2 v0 : Nat),
      p1 ≠ 255 → p1 ≠ p2 →
      ((b53_mdio_read8 simBus
        (b53_mdio_read8 simBus (f, L) b53_phy_probe_device p1 reg1 v0).2.1
        (b53_mdio_read8 simBus (f, L) b53_phy_probe_device p1 reg1 v0).2.2.1
        p2 reg2 v0).2.1.2).countP isPageSelW = L.countP isPageSelW + 2) := by
  refine ⟨fun σ bus s dev page reg op => b53_mdio_op_countP_pagesel bus s dev page reg op,
    ?_, ?_⟩
  · intro f L page reg1 reg2 v0 hp
    have h1 : (b53_phy_probe_device).current_page ≠ page := by
      simp [b53_phy_probe_device]
      omega
    have h2 : ¬((⟨page⟩ : b53_device).current_page ≠ page) := by simp
    rw [read8_pagesel_s, read8_dev, if_neg h2, read8_pagesel, if_pos h1]
  · intro f L p1 p2 reg1 reg2 v0 hp1 hp12
    have h1 : (b53_phy_probe_device).current_page ≠ p1 := by
      simp [b53_phy_probe_device]
      omega
    have h2 : ((⟨p1⟩ : b53_device)).current_page ≠ p2 := by simpa using hp12
    rw [read8_pagesel_s, read8_dev, if_pos h2, read8_pagesel, if_pos h1]

/-- Witness for the amended C7: the first-conjunct equation on the
always-pending transport, and the two fresh-handle scenarios at pages 3
and 3/5. -/
theorem claim_C7_pagesel_elision_witness :
    (((b53_mdio_op pendBus ((), []) b53_phy_probe_device 3 0 2).2.1.2).countP isPageSelW =
      ([] : List BusEvent).countP isPageSelW +
        (if (b53_phy_probe_device).current_page ≠ 3 then 1 else 0)) ∧
    (((b53_mdio_read8 simBus
      (b53_mdio_read8 simBus ((fun _ => 0), []) b53_phy_probe_device 3 0 0).2.1
      (b53_mdio_read8 simBus ((fun _ => 0), []) b53_phy_probe_device 3 0 0).2.2.1
      3 1 0).2.1.2).countP isPageSelW = ([] : List BusEvent).countP isPageSelW + 1) ∧
    (((b53_mdio_read8 simBus
      (b53_mdio_read8 simBus ((fun _ => 0), []) b53_phy_probe_device 3 0 0).2.1
      (b53_mdio_read8 simBus ((fun _ => 0), []) b53_phy_probe_device 3 0 0).2.2.1
      5 1 0).2.1.2).countP isPageSelW = ([] : List BusEvent).countP isPageSelW + 2) :=
  ⟨claim_C7_pagesel_elision.1 Unit pendBus ((), []) b53_phy_probe_device 3 0 2,
   claim_C7_pagesel_elision.2.1 (fun _ => 0) [] 3 0 1 0 (by decide),
   claim_C7_pagesel_elision.2.2 (fun _ => 0) [] 3 5 0 1 0 (by decide) (by decide)⟩

/-- C10: whenever any of the ten read-N/write-N operations returns
success, the device cache holds the page that was requested, and a
subsequent operation on a device whose cached page equals the requested
page issues no page-select write. -/
theorem claim_C10_cache_invariant (σ : Type) (bus : MBus σ) (s : BusSt σ)
    (dev : b53_device) (page reg v0 w : Nat) :
    ((b53_mdio_read8 bus s dev page reg v0).1 = 0 →
      (b53_mdio_read8 bus s dev page reg v0).2.2.1.current_page = page) ∧
    ((b53_mdio_read16 bus s dev page reg v0).1 = 0 →
      (b53_mdio_read16 bus s dev page reg v0).2.2.1.current_page = page) ∧
    ((b53_mdio_read32 bus s dev page reg v0).1 = 0 →
      (b53_mdio_read32 bus s dev page reg v0).2.2.1.current_page = page) ∧
    ((b53_mdio_read48 bus s dev page reg v0).1 = 0 →
      (b53_mdio_read48 bus s dev page reg v0).2.2.1.current_page = page) ∧
    ((b53_mdio_read64 bus s dev page reg v0).1 = 0 →
      (b53_mdio_read64 bus s dev page reg v0).2.2.1.current_page = page) ∧
    ((b53_mdio_write8 bus s dev page reg w).1 = 0 →
      (b53_mdio_write8 bus s dev page reg w).2.2.current_page = page) ∧
    ((b53_mdio_write16 bus s dev page reg w).1 = 0 →
      (b53_mdio_write16 bus s dev page reg w).2.2.current_page = page) ∧
    ((b53_mdio_write32 bus s dev page reg w).1 = 0 →
      (b53_mdio_write32 bus s dev page reg w).2.2.current_page = page) ∧
    ((b53_mdio_write48 bus s dev page reg w).1 = 0 →
      (b53_mdio_write48 bus s dev page reg w).2.2.current_page = page) ∧
    ((b53_mdio_write64 bus s dev page reg w).1 = 0 →
      (b53_mdio_write64 bus s dev page reg w).2.2.current_page = page) ∧
    (∀ (s2 : BusSt σ) (dev2 : b53_device) (reg2 op2 : Nat),
      dev2.current_page = page →
      ((b53_mdio_op bus s2 dev2 page reg2 op2).2.1.2).countP isPageSelW =
        s2.2.countP isPageSelW) := by
  refine ⟨?_, ?_, ?_, ?_, ?_, ?_, ?_, ?_, ?_, ?_, ?_⟩
  · simp only [b53_mdio_read8]
    split
    · rename_i hfail
      intro h
      exact absurd h hfail
    · rename_i hok
      intro _
      exact b53_mdio_op_dev_success bus s dev page reg REG_MII_ADDR_READ (not_not.mp hok)
  · simp only [b53_mdio_read16]
    split
    · rename_i hfail
      intro h
      exact absurd h hfail
    · rename_i hok
      intro _
      exact b53_mdio_op_dev_success bus s dev page reg REG_MII_ADDR_READ (not_not.mp hok)
  · simp only [b53_mdio_read32]
    split
    · rename_i hfail
      intro h
      exact absurd h hfail
    · rename_i hok
      intro _
      exact b53_mdio_op_dev_success bus s dev page reg REG_MII_ADDR_READ (not_not.mp hok)
  · simp only [b53_mdio_read48]
    split
    · rename_i hfail
      intro h
      exact absurd h hfail
    · rename_i hok
      intro _
      exact b53_mdio_op_dev_success bus s dev page reg REG_MII_ADDR_READ (not_not.mp hok)
  · simp only [b53_mdio_read64]
    split
    · rename_i hfail
      intro h
      exact absurd h hfail
    · rename_i hok
      intro _
      exact b53_mdio_op_dev_success bus s dev page reg REG_MII_ADDR_READ (not_not.mp hok)
  · simp only [b53_mdio_write8]
    split
    · rename_i hfail
      intro h
      exact absurd h hfail
    · intro h
      exact b53_mdio_op_dev_success bus _ dev page reg REG_MII_ADDR_WRITE h
  · simp only [b53_mdio_write16]
    split
    · rename_i hfail
      intro h
      exact absurd h hfail
    · intro h
      exact b53_mdio_op_dev_success bus _ dev page reg REG_MII_ADDR_WRITE h
  · simp only [b53_mdio_write32]
    split
    · rename_i hfail
      intro h
      exact absurd h hfail
    · intro h
      exact b53_mdio_op_dev_success bus _ dev page reg REG_MII_ADDR_WRITE h
  · simp only [b53_mdio_write48]
    split
    · rename_i hfail
      intro h
      exact absurd h hfail
    · intro h
      exact b53_mdio_op_dev_success bus _ dev page reg REG_MII_ADDR_WRITE h
  · simp only [b53_mdio_write64]
    split
    · rename_i hfail
      intro h
      exact absurd h hfail
    · intro h
      exact b53_mdio_op_dev_success bus _ dev page reg REG_MII_ADDR_WRITE h
  · intro s2 dev2 reg2 op2 h
    rw [b53_mdio_op_countP_pagesel, if_neg (by simp [h]), Nat.add_zero]

/-- Witness for C10: a successful fault-free read8 caches the page. -/
theorem claim_C10_cache_invariant_witness :
    (b53_mdio_read8 simBus ((fun _ => 0), []) b53_phy_probe_device 9 4 0).2.2.1.current_page
      = 9 :=
  (claim_C10_cache_invariant (Nat → Nat) simBus ((fun _ => 0), []) b53_phy_probe_device
    9 4 0 0).1 (by decide)

/-- A transport whose writes succeed and whose reads always fail with
-EIO (-5); its 16-bit truncation 0xFFFB has both opcode bits set. -/
def eioBus : MBus Unit :=
  { read := fun _ _ _ => (-5, ())
    write := fun _ _ _ _ => (0, ()) }

/-- A transport whose writes succeed and whose reads always fail with
-ENOMEM (-12); its 16-bit truncation 0xFFF4 has both opcode bits clear. -/
def enomemBus : MBus Unit :=
  { read := fun _ _ _ => (-12, ())
    write := fun _ _ _ _ => (0, ()) }

/-- C4: when every completion-poll read of the address register reports
the operation still pending, the sequencer performs exactly 5 poll reads
and fails with -EIO; conversely a poll read that observes both opcode
bits clear makes the poll return success immediately, with exactly that
one read issued. -/
theorem claim_C4_poll_bound :
    (∀ (σ : Type) (bus : MBus σ),
      (∀ (f : σ) (phy reg v : Nat), (bus.write f phy reg v).1 = 0) →
      (∀ f : σ, toU16 (bus.read f B53_PSEUDO_PHY REG_MII_ADDR).1 &&&
        (REG_MII_ADDR_WRITE ||| REG_MII_ADDR_READ) ≠ 0) →
      ∀ (s : BusSt σ) (dev : b53_device) (page reg op : Nat),
      (b53_mdio_op bus s dev page reg op).1 = eioErr ∧
      ((b53_mdio_op bus s dev page reg op).2.1.2).countP isAddrRd =
        s.2.countP isAddrRd + 5) ∧
    (∀ (σ : Type) (bus : MBus σ) (s : BusSt σ) (i : Nat) (rest : List Nat),
      toU16 (bus.read s.1 B53_PSEUDO_PHY REG_MII_ADDR).1 &&&
        (REG_MII_ADDR_WRITE ||| REG_MII_ADDR_READ) = 0 →
      b53_poll bus s (i :: rest) =
        (0, ((bus.read s.1 B53_PSEUDO_PHY REG_MII_ADDR).2,
          s.2 ++ [BusEvent.rd B53_PSEUDO_PHY REG_MII_ADDR
            (bus.read s.1 B53_PSEUDO_PHY REG_MII_ADDR).1]))) := by
  constructor
  · intro σ bus hW hR s dev page reg op
    have key : ∀ s1 : BusSt σ,
        (b53_poll bus s1 pollIters).1 = eioErr ∧
        ((b53_poll bus s1 pollIters).2.2).countP isAddrRd =
          s1.2.countP isAddrRd + 5 := by
      intro s1
      simpa [pollIters] using b53_poll_pending bus hR pollIters s1
    by_cases hcp : dev.current_page ≠ page
    · simp [b53_mdio_op, b53_mdio_op_issue, mdiobus_write, hW, hcp]
      refine ⟨(key _).1, ?_⟩
      rw [(key _).2]
      simp [List.countP_append, List.countP_cons, isAddrRd]
    · simp [b53_mdio_op, b53_mdio_op_issue, mdiobus_write, hW, hcp]
      refine ⟨(key _).1, ?_⟩
      rw [(key _).2]
      simp [List.countP_append, List.countP_cons, isAddrRd]
  · intro σ bus s i rest h
    simp [b53_poll, mdiobus_read, h]

/-- Witness for C4: the always-pending transport times out with 5 polls;
a scripted transport whose first poll reads 0 exits at once. -/
theorem claim_C4_poll_bound_witness :
    ((b53_mdio_op pendBus ((), []) b53_phy_probe_device 1 2 REG_MII_ADDR_READ).1 = eioErr ∧
     ((b53_mdio_op pendBus ((), []) b53_phy_probe_device 1 2
        REG_MII_ADDR_READ).2.1.2).countP isAddrRd =
       ([] : List BusEvent).countP isAddrRd + 5) ∧
    (b53_poll scriptBus ([0], []) (0 :: []) =
      (0, ((scriptBus.read [0] B53_PSEUDO_PHY REG_MII_ADDR).2,
        [] ++ [BusEvent.rd B53_PSEUDO_PHY REG_MII_ADDR
          (scriptBus.read [0] B53_PSEUDO_PHY REG_MII_ADDR).1]))) :=
  ⟨claim_C4_poll_bound.1 Unit pendBus (fun _ _ _ _ => rfl)
    (fun u => by cases u; decide)
    ((), []) b53_phy_probe_device 1 2 REG_MII_ADDR_READ,
   claim_C4_poll_bound.2 (List Int) scriptBus ([0], []) 0 [] (by decide)⟩

/-- C8: the page cache is updated only on confirmed success of the
page-select write: when the page-select bus write fails, the whole access
fails with that error and `current_page` is left unchanged; when the
page-select succeeds but the following address write fails, the access
fails with the address write's error while `current_page` stays at the
newly selected page. -/
theorem claim_C8_cache_update (σ : Type) (bus : MBus σ) (s : BusSt σ)
    (dev : b53_device) (page reg op : Nat) :
    (dev.current_page ≠ page →
      (mdiobus_write bus s B53_PSEUDO_PHY REG_MII_PAGE
        ((page <<< 8) ||| REG_MII_PAGE_ENABLE)).1 ≠ 0 →
      b53_mdio_op bus s dev page reg op =
        ((mdiobus_write bus s B53_PSEUDO_PHY REG_MII_PAGE
            ((page <<< 8) ||| REG_MII_PAGE_ENABLE)).1,
         (mdiobus_write bus s B53_PSEUDO_PHY REG_MII_PAGE
            ((page <<< 8) ||| REG_MII_PAGE_ENABLE)).2,
         dev)) ∧
    (dev.current_page ≠ page →
      (mdiobus_write bus s B53_PSEUDO_PHY REG_MII_PAGE
        ((page <<< 8) ||| REG_MII_PAGE_ENABLE)).1 = 0 →
      (mdiobus_write bus
        (mdiobus_write bus s B53_PSEUDO_PHY REG_MII_PAGE
          ((page <<< 8) ||| REG_MII_PAGE_ENABLE)).2
        B53_PSEUDO_PHY REG_MII_ADDR ((reg <<< 8) ||| op)).1 ≠ 0 →
      (b53_mdio_op bus s dev page reg op).1 =
        (mdiobus_write bus
          (mdiobus_write bus s B53_PSEUDO_PHY REG_MII_PAGE
            ((page <<< 8) ||| REG_MII_PAGE_ENABLE)).2
          B53_PSEUDO_PHY REG_MII_ADDR ((reg <<< 8) ||| op)).1 ∧
      (b53_mdio_op bus s dev page reg op).2.2 = ⟨page⟩) := by
  constructor
  · intro hne hpw
    simp [b53_mdio_op, hne, hpw]
  · intro hne hpw haw
    simp [b53_mdio_op, b53_mdio_op_issue, hne, hpw, haw]

/-- Witness for C8: a scripted transport failing the page-select write
with -7, and one failing the address write with -9 after a successful
page select. -/
theorem claim_C8_cache_update_witness :
    (b53_mdio_op scriptBus ([-7], []) ⟨0⟩ 1 2 REG_MII_ADDR_READ =
      ((mdiobus_write scriptBus ([-7], []) B53_PSEUDO_PHY REG_MII_PAGE
          ((1 <<< 8) ||| REG_MII_PAGE_ENABLE)).1,
       (mdiobus_write scriptBus ([-7], []) B53_PSEUDO_PHY REG_MII_PAGE
          ((1 <<< 8) ||| REG_MII_PAGE_ENABLE)).2,
       (⟨0⟩ : b53_device))) ∧
    ((b53_mdio_op scriptBus ([0, -9], []) ⟨0⟩ 1 2 REG_MII_ADDR_READ).1 =
      (mdiobus_write scriptBus
        (mdiobus_write scriptBus ([0, -9], []) B53_PSEUDO_PHY REG_MII_PAGE
          ((1 <<< 8) ||| REG_MII_PAGE_ENABLE)).2
        B53_PSEUDO_PHY REG_MII_ADDR ((2 <<< 8) ||| REG_MII_ADDR_READ)).1 ∧
     (b53_mdio_op scriptBus ([0, -9], []) ⟨0⟩ 1 2 REG_MII_ADDR_READ).2.2 = ⟨1⟩) :=
  ⟨(claim_C8_cache_update (List Int) scriptBus ([-7], []) ⟨0⟩ 1 2
      REG_MII_ADDR_READ).1 (by decide) (by decide),
   (claim_C8_cache_update (List Int) scriptBus ([0, -9], []) ⟨0⟩ 1 2
      REG_MII_ADDR_READ).2 (by decide) (by decide) (by decide)⟩

/-- C9 counterexample: with every poll read failing with the transport
error -ENOMEM (-12), whose 16-bit truncation 0xFFF4 has both opcode bits
clear, the operation does NOT time out with -EIO after 5 attempts: it
returns success after a single poll read, treating the truncated error as
a completed status. -/
theorem claim_C9_counterexample :
    (b53_mdio_op enomemBus ((), []) ⟨0⟩ 0 0 REG_MII_ADDR_READ).1 = 0 ∧
    ((b53_mdio_op enomemBus ((), []) ⟨0⟩ 0 0 REG_MII_ADDR_READ).2.1.2).countP
      isAddrRd = 1 := by
  exact ⟨rfl, rfl⟩

/-- C9 amended: a transport error on a completion-poll read is never
surfaced as a transport error; the sequencer's result is always either
success or the -EIO timeout once the two writes succeed.  The error value
truncated to 16 bits is treated as a status word: when its READ/WRITE
bits are set (as for -EIO, 0xFFFB) every-poll-failing operations exit
with -EIO after exactly 5 polls, and when those bits are clear (as for
-ENOMEM, 0xFFF4) the failing poll read is treated as successful
completion. -/
theorem claim_C9_poll_error_folding :
    (∀ (σ : Type) (bus : MBus σ),
      (∀ (f : σ) (phy reg v : Nat), (bus.write f phy reg v).1 = 0) →
      ∀ (s : BusSt σ) (dev : b53_device) (page reg op : Nat),
      (b53_mdio_op bus s dev page reg op).1 = 0 ∨
      (b53_mdio_op bus s dev page reg op).1 = eioErr) ∧
    (∀ (σ : Type) (bus : MBus σ),
      (∀ (f : σ) (phy reg v : Nat), (bus.write f phy reg v).1 = 0) →
      (∀ f : σ, (bus.read f B53_PSEUDO_PHY REG_MII_ADDR).1 < 0 ∧
        toU16 (bus.read f B53_PSEUDO_PHY REG_MII_ADDR).1 &&&
          (REG_MII_ADDR_WRITE ||| REG_MII_ADDR_READ) ≠ 0) →
      ∀ (s : BusSt σ) (dev : b53_device) (page reg op : Nat),
      (b53_mdio_op bus s dev page reg op).1 = eioErr ∧
      ((b53_mdio_op bus s dev page reg op).2.1.2).countP isAddrRd =
        s.2.countP isAddrRd + 5) ∧
    (∀ (σ : Type) (bus : MBus σ),
      (∀ (f : σ) (phy reg v : Nat), (bus.write f phy reg v).1 = 0) →
      (∀ f : σ, (bus.read f B53_PSEUDO_PHY REG_MII_ADDR).1 < 0 ∧
        toU16 (bus.read f B53_PSEUDO_PHY REG_MII_ADDR).1 &&&
          (REG_MII_ADDR_WRITE ||| REG_MII_ADDR_READ) = 0) →
      ∀ (s : BusSt σ) (dev : b53_device) (page reg op : Nat),
      (b53_mdio_op bus s dev page reg op).1 = 0) := by
  refine ⟨?_, ?_, ?_⟩
  · intro σ bus hW s dev page reg op
    by_cases hcp : dev.current_page ≠ page <;>
      simp [b53_mdio_op, b53_mdio_op_issue, mdiobus_write, hW, hcp] <;>
      exact b53_poll_ret bus pollIters _
  · intro σ bus hW hR s dev page reg op
    have key : ∀ s1 : BusSt σ,
        (b53_poll bus s1 pollIters).1 = eioErr ∧
        ((b53_poll bus s1 pollIters).2.2).countP isAddrRd =
          s1.2.countP isAddrRd + 5 := by
      intro s1
      simpa [pollIters] using
        b53_poll_pending bus (fun f => (hR f).2) pollIters s1
    by_cases hcp : dev.current_page ≠ page
    · simp [b53_mdio_op, b53_mdio_op_issue, mdiobus_write, hW, hcp]
      refine ⟨(key _).1, ?_⟩
      rw [(key _).2]
      simp [List.countP_append, List.countP_cons, isAddrRd]
    · simp [b53_mdio_op, b53_mdio_op_issue, mdiobus_write, hW, hcp]
      refine ⟨(key _).1, ?_⟩
      rw [(key _).2]
      simp [List.countP_append, List.countP_cons, isAddrRd]
  · intro σ bus hW hR0 s dev page reg op
    have hc : ∀ f : σ, toU16 (bus.read f B53_PSEUDO_PHY REG_MII_ADDR).1 &&&
        (REG_MII_ADDR_WRITE ||| REG_MII_ADDR_READ) = 0 := fun f => (hR0 f).2
    by_cases hcp : dev.current_page ≠ page <;>
      simp [b53_mdio_op, b53_mdio_op_issue, mdiobus_write, mdiobus_read, hW, hcp,
        pollIters, b53_poll, hc]

/-- Witness for the amended C9: part 1 on the fault-free transport, part 2
on the always -EIO transport, part 3 on the always -ENOMEM transport. -/
theorem claim_C9_poll_error_folding_witness :
    ((b53_mdio_op simBus ((fun _ => 0), []) b53_phy_probe_device 1 2
        REG_MII_ADDR_READ).1 = 0 ∨
     (b53_mdio_op simBus ((fun _ => 0), []) b53_phy_probe_device 1 2
        REG_MII_ADDR_READ).1 = eioErr) ∧
    ((b53_mdio_op eioBus ((), []) b53_phy_probe_device 1 2 REG_MII_ADDR_READ).1 =
        eioErr ∧
     ((b53_mdio_op eioBus ((), []) b53_phy_probe_device 1 2
        REG_MII_ADDR_READ).2.1.2).countP isAddrRd =
       ([] : List BusEvent).countP isAddrRd + 5) ∧
    ((b53_mdio_op enomemBus ((), []) b53_phy_probe_device 1 2
        REG_MII_ADDR_READ).1 = 0) :=
  ⟨claim_C9_poll_error_folding.1 (Nat → Nat) simBus (fun _ _ _ _ => rfl)
     ((fun _ => 0), []) b53_phy_probe_device 1 2 REG_MII_ADDR_READ,
   claim_C9_poll_error_folding.2.1 Unit eioBus (fun _ _ _ _ => rfl)
     (fun u => by cases u; exact ⟨by decide, by decide⟩)
     ((), []) b53_phy_probe_device 1 2 REG_MII_ADDR_READ,
   claim_C9_poll_error_folding.2.2 Unit enomemBus (fun _ _ _ _ => rfl)
     (fun u => by cases u; exact ⟨by decide, by decide⟩)
     ((), []) b53_phy_probe_device 1 2 REG_MII_ADDR_READ⟩

/-- C5: for every write-N, when a data-slot staging write fails, the
operation returns that transport error at once and never issues the
address/opcode trigger write. -/
theorem claim_C5_abort_before_trigger (σ : Type) (bus : MBus σ) (s : BusSt σ)
    (dev : b53_device) (page reg value : Nat) :
    ((mdiobus_write bus s B53_PSEUDO_PHY REG_MII_DATA0 value).1 ≠ 0 →
      b53_mdio_write8 bus s dev page reg value =
        ((mdiobus_write bus s B53_PSEUDO_PHY REG_MII_DATA0 value).1,
         (mdiobus_write bus s B53_PSEUDO_PHY REG_MII_DATA0 value).2, dev) ∧
      ((b53_mdio_write8 bus s dev page reg value).2.1.2).countP isAddrW =
        s.2.countP isAddrW) ∧
    ((mdiobus_write bus s B53_PSEUDO_PHY REG_MII_DATA0 value).1 ≠ 0 →
      b53_mdio_write16 bus s dev page reg value =
        ((mdiobus_write bus s B53_PSEUDO_PHY REG_MII_DATA0 value).1,
         (mdiobus_write bus s B53_PSEUDO_PHY REG_MII_DATA0 value).2, dev) ∧
      ((b53_mdio_write16 bus s dev page reg value).2.1.2).countP isAddrW =
        s.2.countP isAddrW) ∧
    ((b53_write_slots bus s value [0, 1]).1 ≠ 0 →
      b53_mdio_write32 bus s dev page reg value =
        ((b53_write_slots bus s value [0, 1]).1,
         (b53_write_slots bus s value [0, 1]).2, dev) ∧
      ((b53_mdio_write32 bus s dev page reg value).2.1.2).countP isAddrW =
        s.2.countP isAddrW) ∧
    ((b53_write_slots bus s value [0, 1, 2]).1 ≠ 0 →
      b53_mdio_write48 bus s dev page reg value =
        ((b53_write_slots bus s value [0, 1, 2]).1,
         (b53_write_slots bus s value [0, 1, 2]).2, dev) ∧
      ((b53_mdio_write48 bus s dev page reg value).2.1.2).countP isAddrW =
        s.2.countP isAddrW) ∧
    ((b53_write_slots bus s value [0, 1, 2, 3]).1 ≠ 0 →
      b53_mdio_write64 bus s dev page reg value =
        ((b53_write_slots bus s value [0, 1, 2, 3]).1,
         (b53_write_slots bus s value [0, 1, 2, 3]).2, dev) ∧
      ((b53_mdio_write64 bus s dev page reg value).2.1.2).countP isAddrW =
        s.2.countP isAddrW) := by
  have hdata : ∀ (phy i v : Nat) (ret : Int),
      isAddrW (BusEvent.wr phy (REG_MII_DATA0 + i) v ret) = false := by
    intro phy i v ret
    simp [isAddrW, REG_MII_DATA0, REG_MII_ADDR]
    omega
  refine ⟨?_, ?_, ?_, ?_, ?_⟩
  · intro h
    have h2 : (bus.write s.1 B53_PSEUDO_PHY REG_MII_DATA0 value).1 ≠ 0 := h
    have hi : ∀ ret : Int,
        isAddrW (BusEvent.wr B53_PSEUDO_PHY REG_MII_DATA0 value ret) = false := by
      intro ret
      simp [isAddrW, REG_MII_DATA0, REG_MII_ADDR]
    refine ⟨by simp [b53_mdio_write8, h], ?_⟩
    simp [b53_mdio_write8, mdiobus_write, h2, List.countP_append, List.countP_cons, hi]
  · intro h
    have h2 : (bus.write s.1 B53_PSEUDO_PHY REG_MII_DATA0 value).1 ≠ 0 := h
    have hi : ∀ ret : Int,
        isAddrW (BusEvent.wr B53_PSEUDO_PHY REG_MII_DATA0 value ret) = false := by
      intro ret
      simp [isAddrW, REG_MII_DATA0, REG_MII_ADDR]
    refine ⟨by simp [b53_mdio_write16, h], ?_⟩
    simp [b53_mdio_write16, mdiobus_write, h2, List.countP_append, List.countP_cons, hi]
  · intro h
    refine ⟨by simp [b53_mdio_write32, h], ?_⟩
    simp only [b53_mdio_write32, if_pos h]
    exact b53_write_slots_countP bus isAddrW hdata [0, 1] s value
  · intro h
    refine ⟨by simp [b53_mdio_write48, h], ?_⟩
    simp only [b53_mdio_write48, if_pos h]
    exact b53_write_slots_countP bus isAddrW hdata [0, 1, 2] s value
  · intro h
    refine ⟨by simp [b53_mdio_write64, h], ?_⟩
    simp only [b53_mdio_write64, if_pos h]
    exact b53_write_slots_countP bus isAddrW hdata [0, 1, 2, 3] s value

/-- Witness for C5: a scripted transport failing the first slot write
with -5; no trigger write appears in any of the five logs. -/
theorem claim_C5_abort_before_trigger_witness :
    (b53_mdio_write8 scriptBus ([-5], []) ⟨0⟩ 1 2 7 =
      ((mdiobus_write scriptBus ([-5], []) B53_PSEUDO_PHY REG_MII_DATA0 7).1,
       (mdiobus_write scriptBus ([-5], []) B53_PSEUDO_PHY REG_MII_DATA0 7).2,
       (⟨0⟩ : b53_device)) ∧
     ((b53_mdio_write8 scriptBus ([-5], []) ⟨0⟩ 1 2 7).2.1.2).countP isAddrW =
       ([] : List BusEvent).countP isAddrW) ∧
    (b53_mdio_write64 scriptBus ([-5], []) ⟨0⟩ 1 2 7 =
      ((b53_write_slots scriptBus ([-5], []) 7 [0, 1, 2, 3]).1,
       (b53_write_slots scriptBus ([-5], []) 7 [0, 1, 2, 3]).2,
       (⟨0⟩ : b53_device)) ∧
     ((b53_mdio_write64 scriptBus ([-5], []) ⟨0⟩ 1 2 7).2.1.2).countP isAddrW =
       ([] : List BusEvent).countP isAddrW) :=
  ⟨(claim_C5_abort_before_trigger (List Int) scriptBus ([-5], []) ⟨0⟩ 1 2 7).1
     (by decide),
   (claim_C5_abort_before_trigger (List Int) scriptBus ([-5], []) ⟨0⟩ 1 2 7).2.2.2.2
     (by decide)⟩

/-- C2 counterexample: with a transport whose data-slot read fails with
the transport error -5 after a successful operation sequence, read16
reports SUCCESS (0) and folds the truncated error (0xFFFB = 65531) into
the returned value; the slot read's failure is not propagated. -/
theorem claim_C2_counterexample :
    (b53_mdio_read16 scriptBus ([0, 0, 0, -5], []) b53_phy_probe_device 0 0 0).1 = 0 ∧
    (b53_mdio_read16 scriptBus ([0, 0, 0, -5], []) b53_phy_probe_device 0 0 0).2.2.2 =
      65531 ∧
    (b53_mdio_read16 scriptBus ([0, 0, 0, -5], []) b53_phy_probe_device 0 0 0).2.1.2 =
      [BusEvent.wr B53_PSEUDO_PHY REG_MII_PAGE 1 0,
       BusEvent.wr B53_PSEUDO_PHY REG_MII_ADDR 2 0,
       BusEvent.rd B53_PSEUDO_PHY REG_MII_ADDR 0,
       BusEvent.rd B53_PSEUDO_PHY REG_MII_DATA0 (-5)] := by
  refine ⟨rfl, by decide, rfl⟩

/-- C2 amended: transport errors during the data-slot reads are never
propagated: whenever the operation-sequencer phase succeeds, every read-N
returns success regardless of the slot reads' results; a failing slot
read's (negative) return value is truncated and folded into the returned
data instead. -/
theorem claim_C2_slot_read_errors (σ : Type) (bus : MBus σ) (s : BusSt σ)
    (dev : b53_device) (page reg v0 : Nat) :
    ((b53_mdio_op bus s dev page reg REG_MII_ADDR_READ).1 = 0 →
      (b53_mdio_read8 bus s dev page reg v0).1 = 0) ∧
    ((b53_mdio_op bus s dev page reg REG_MII_ADDR_READ).1 = 0 →
      (b53_mdio_read16 bus s dev page reg v0).1 = 0) ∧
    ((b53_mdio_op bus s dev page reg REG_MII_ADDR_READ).1 = 0 →
      (b53_mdio_read32 bus s dev page reg v0).1 = 0) ∧
    ((b53_mdio_op bus s dev page reg REG_MII_ADDR_READ).1 = 0 →
      (b53_mdio_read48 bus s dev page reg v0).1 = 0) ∧
    ((b53_mdio_op bus s dev page reg REG_MII_ADDR_READ).1 = 0 →
      (b53_mdio_read64 bus s dev page reg v0).1 = 0) := by
  refine ⟨?_, ?_, ?_, ?_, ?_⟩
  · intro h
    simp [b53_mdio_read8, h]
  · intro h
    simp [b53_mdio_read16, h]
  · intro h
    simp [b53_mdio_read32, h]
  · intro h
    simp [b53_mdio_read48, h]
  · intro h
    simp [b53_mdio_read64, h]

/-- Witness for the amended C2: a scripted transport whose sequencer phase
succeeds; all five reads return success. -/
theorem claim_C2_slot_read_errors_witness :
    ((b53_mdio_read8 scriptBus ([0, 0, 0, -5], []) b53_phy_probe_device 0 0 0).1 = 0) ∧
    ((b53_mdio_read64 scriptBus ([0, 0, 0, -5], []) b53_phy_probe_device 0 0 0).1 = 0) :=
  ⟨(claim_C2_slot_read_errors (List Int) scriptBus ([0, 0, 0, -5], [])
      b53_phy_probe_device 0 0 0).1 (by decide),
   (claim_C2_slot_read_errors (List Int) scriptBus ([0, 0, 0, -5], [])
      b53_phy_probe_device 0 0 0).2.2.2.2 (by decide)⟩

theorem shiftRight_shiftRight (x m n : Nat) : x >>> m >>> n = x >>> (m + n) :=
  (Nat.shiftRight_add x m n).symm

/-- C6: every write-N stages exactly ceil(N/16) data-slot writes, to
slots 0.. in ascending order, slot i carrying (value >> 16*i) &amp; 0xFFFF,
all before the trigger write: each write-N equals the trigger operation
run from the state reached by the staging writes, whose log records
exactly those slot writes in order; the trigger operation itself adds no
data-slot write; and writing the 64-bit value 0x0000000000010002 stages
slot0=0x0002, slot1=0x0001, slot2=0x0000, slot3=0x0000, in that order,
before the trigger write. -/
theorem claim_C6_staging_order (σ : Type) (bus : MBus σ)
    (hW : ∀ (f : σ) (phy reg v : Nat), (bus.write f phy reg v).1 = 0)
    (f : σ) (L : List BusEvent) (dev : b53_device) (page reg V V8 V16 : Nat)
    (h8 : V8 < 256) (h16 : V16 < 65536) :
    (b53_mdio_write8 bus (f, L) dev page reg V8 =
      b53_mdio_op bus ((bus.write f B53_PSEUDO_PHY REG_MII_DATA0 V8).2,
        L ++ [BusEvent.wr B53_PSEUDO_PHY (REG_MII_DATA0 + 0) (V8 &&& 65535) 0])
        dev page reg REG_MII_ADDR_WRITE) ∧
    (b53_mdio_write16 bus (f, L) dev page reg V16 =
      b53_mdio_op bus ((bus.write f B53_PSEUDO_PHY REG_MII_DATA0 V16).2,
        L ++ [BusEvent.wr B53_PSEUDO_PHY (REG_MII_DATA0 + 0) (V16 &&& 65535) 0])
        dev page reg REG_MII_ADDR_WRITE) ∧
    (b53_mdio_write32 bus (f, L) dev page reg V =
      b53_mdio_op bus ((b53_write_slots bus (f, L) V [0, 1]).2.1,
        L ++ [BusEvent.wr B53_PSEUDO_PHY (REG_MII_DATA0 + 0) (V &&& 65535) 0,
              BusEvent.wr B53_PSEUDO_PHY (REG_MII_DATA0 + 1) ((V >>> 16) &&& 65535) 0])
        dev page reg REG_MII_ADDR_WRITE) ∧
    (b53_mdio_write48 bus (f, L) dev page reg V =
      b53_mdio_op bus ((b53_write_slots bus (f, L) V [0, 1, 2]).2.1,
        L ++ [BusEvent.wr B53_PSEUDO_PHY (REG_MII_DATA0 + 0) (V &&& 65535) 0,
              BusEvent.wr B53_PSEUDO_PHY (REG_MII_DATA0 + 1) ((V >>> 16) &&& 65535) 0,
              BusEvent.wr B53_PSEUDO_PHY (REG_MII_DATA0 + 2) ((V >>> 32) &&& 65535) 0])
        dev page reg REG_MII_ADDR_WRITE) ∧
    (b53_mdio_write64 bus (f, L) dev page reg V =
      b53_mdio_op bus ((b53_write_slots bus (f, L) V [0, 1, 2, 3]).2.1,
        L ++ [BusEvent.wr B53_PSEUDO_PHY (REG_MII_DATA0 + 0) (V &&& 65535) 0,
              BusEvent.wr B53_PSEUDO_PHY (REG_MII_DATA0 + 1) ((V >>> 16) &&& 65535) 0,
              BusEvent.wr B53_PSEUDO_PHY (REG_MII_DATA0 + 2) ((V >>> 32) &&& 65535) 0,
              BusEvent.wr B53_PSEUDO_PHY (REG_MII_DATA0 + 3) ((V >>> 48) &&& 65535) 0])
        dev page reg REG_MII_ADDR_WRITE) ∧
    (∀ (s : BusSt σ) (dev2 : b53_device) (page2 reg2 op2 : Nat),
      ((b53_mdio_op bus s dev2 page2 reg2 op2).2.1.2).countP isDataW =
        s.2.countP isDataW) ∧
    ((b53_mdio_write64 simBus ((fun _ => 0), []) b53_phy_probe_device 0 0
        65538).2.1.2.take 4 =
      [BusEvent.wr B53_PSEUDO_PHY (REG_MII_DATA0 + 0) 2 0,
       BusEvent.wr B53_PSEUDO_PHY (REG_MII_DATA0 + 1) 1 0,
       BusEvent.wr B53_PSEUDO_PHY (REG_MII_DATA0 + 2) 0 0,
       BusEvent.wr B53_PSEUDO_PHY (REG_MII_DATA0 + 3) 0 0] ∧
     ((b53_mdio_write64 simBus ((fun _ => 0), []) b53_phy_probe_device 0 0
        65538).2.1.2.drop 4).countP isDataW = 0 ∧
     (b53_mdio_write64 simBus ((fun _ => 0), []) b53_phy_probe_device 0 0
        65538).2.1.2.countP isAddrW = 1) := by
  have hv8 : V8 &&& 65535 = V8 := by
    rw [and_65535_eq_mod]
    omega
  have hv16 : V16 &&& 65535 = V16 := by
    rw [and_65535_eq_mod]
    omega
  refine ⟨?_, ?_, ?_, ?_, ?_, ?_, ?_⟩
  · simp [b53_mdio_write8, mdiobus_write, hW, hv8]
  · simp [b53_mdio_write16, mdiobus_write, hW, hv16]
  · obtain ⟨h0, hlog⟩ := b53_write_slots_ok bus hW [0, 1] f L V
    have hsw : stagedWr V [0, 1] =
        [BusEvent.wr B53_PSEUDO_PHY (REG_MII_DATA0 + 0) (V &&& 65535) 0,
         BusEvent.wr B53_PSEUDO_PHY (REG_MII_DATA0 + 1) ((V >>> 16) &&& 65535) 0] := by
      simp only [stagedWr, shiftRight_shiftRight, Nat.reduceAdd]
    have he : (b53_write_slots bus (f, L) V [0, 1]).2 =
        ((b53_write_slots bus (f, L) V [0, 1]).2.1,
         L ++ [BusEvent.wr B53_PSEUDO_PHY (REG_MII_DATA0 + 0) (V &&& 65535) 0,
           BusEvent.wr B53_PSEUDO_PHY (REG_MII_DATA0 + 1) ((V >>> 16) &&& 65535) 0]) := by
      rw [← hsw, ← hlog]
    simp only [b53_mdio_write32, h0]
    rw [if_neg (by simp), he]
  · obtain ⟨h0, hlog⟩ := b53_write_slots_ok bus hW [0, 1, 2] f L V
    have hsw : stagedWr V [0, 1, 2] =
        [BusEvent.wr B53_PSEUDO_PHY (REG_MII_DATA0 + 0) (V &&& 65535) 0,
         BusEvent.wr B53_PSEUDO_PHY (REG_MII_DATA0 + 1) ((V >>> 16) &&& 65535) 0,
         BusEvent.wr B53_PSEUDO_PHY (REG_MII_DATA0 + 2) ((V >>> 32) &&& 65535) 0] := by
      simp only [stagedWr, shiftRight_shiftRight, Nat.reduceAdd]
    have he : (b53_write_slots bus (f, L) V [0, 1, 2]).2 =
        ((b53_write_slots bus (f, L) V [0, 1, 2]).2.1,
         L ++ [BusEvent.wr B53_PSEUDO_PHY (REG_MII_DATA0 + 0) (V &&& 65535) 0,
           BusEvent.wr B53_PSEUDO_PHY (REG_MII_DATA0 + 1) ((V >>> 16) &&& 65535) 0,
           BusEvent.wr B53_PSEUDO_PHY (REG_MII_DATA0 + 2) ((V >>> 32) &&& 65535) 0]) := by
      rw [← hsw, ← hlog]
    simp only [b53_mdio_write48, h0]
    rw [if_neg (by simp), he]
  · obtain ⟨h0, hlog⟩ := b53_write_slots_ok bus hW [0, 1, 2, 3] f L V
    have hsw : stagedWr V [0, 1, 2, 3] =
        [BusEvent.wr B53_PSEUDO_PHY (REG_MII_DATA0 + 0) (V &&& 65535) 0,
         BusEvent.wr B53_PSEUDO_PHY (REG_MII_DATA0 + 1) ((V >>> 16) &&& 65535) 0,
         BusEvent.wr B53_PSEUDO_PHY (REG_MII_DATA0 + 2) ((V >>> 32) &&& 65535) 0,
         BusEvent.wr B53_PSEUDO_PHY (REG_MII_DATA0 + 3) ((V >>> 48) &&& 65535) 0] := by
      simp only [stagedWr, shiftRight_shiftRight, Nat.reduceAdd]
    have he : (b53_write_slots bus (f, L) V [0, 1, 2, 3]).2 =
        ((b53_write_slots bus (f, L) V [0, 1, 2, 3]).2.1,
         L ++ [BusEvent.wr B53_PSEUDO_PHY (REG_MII_DATA0 + 0) (V &&& 65535) 0,
           BusEvent.wr B53_PSEUDO_PHY (REG_MII_DATA0 + 1) ((V >>> 16) &&& 65535) 0,
           BusEvent.wr B53_PSEUDO_PHY (REG_MII_DATA0 + 2) ((V >>> 32) &&& 65535) 0,
           BusEvent.wr B53_PSEUDO_PHY (REG_MII_DATA0 + 3) ((V >>> 48) &&& 65535) 0]) := by
      rw [← hsw, ← hlog]
    simp only [b53_mdio_write64, h0]
    rw [if_neg (by simp), he]
  · intro s dev2 page2 reg2 op2
    refine b53_mdio_op_countP bus isDataW ?_ ?_ ?_ s dev2 page2 reg2 op2
    · intro phy v ret
      simp [isDataW, REG_MII_PAGE, REG_MII_DATA0]
    · intro phy v ret
      simp [isDataW, REG_MII_ADDR, REG_MII_DATA0]
    · intro phy reg2 ret
      rfl
  · refine ⟨rfl, rfl, rfl⟩

/-- Witness for C6: the 64-bit staging equation on the fault-free
transport at a concrete value. -/
theorem claim_C6_staging_order_witness :
    b53_mdio_write64 simBus ((fun _ => 0), []) b53_phy_probe_device 2 9 65538 =
      b53_mdio_op simBus
        ((b53_write_slots simBus ((fun _ => 0), []) 65538 [0, 1, 2, 3]).2.1,
         [] ++ [BusEvent.wr B53_PSEUDO_PHY (REG_MII_DATA0 + 0) (65538 &&& 65535) 0,
           BusEvent.wr B53_PSEUDO_PHY (REG_MII_DATA0 + 1) ((65538 >>> 16) &&& 65535) 0,
           BusEvent.wr B53_PSEUDO_PHY (REG_MII_DATA0 + 2) ((65538 >>> 32) &&& 65535) 0,
           BusEvent.wr B53_PSEUDO_PHY (REG_MII_DATA0 + 3) ((65538 >>> 48) &&& 65535) 0])
        b53_phy_probe_device 2 9 REG_MII_ADDR_WRITE :=
  (claim_C6_staging_order (Nat → Nat) simBus (fun _ _ _ _ => rfl) (fun _ => 0) []
    b53_phy_probe_device 2 9 65538 7 9 (by decide) (by decide)).2.2.2.2.1

end B53
